import Mathlib

/-!
Verification of the MovieRecommender backend (FastAPI + SQLModel + surprise).

Shallow embedding of the code in `backend/app/database.py`,
`backend/app/util/predict.py` and `backend/app/main.py`.

Modelling choices:
* The SQLite store is a `Store`: a list of `Movie` rows and a list of `Rating`
  rows, in insertion order (SQLite returns rows of an unordered `SELECT` in
  rowid order, which is insertion order here).
* Python/SQLite numbers: ids are `Int`; rating estimates are `Rat`.  The
  estimates produced by the model are IEEE doubles; over any fixed finite set
  of double values, comparison and equality coincide with the rational order,
  so `Rat` is an exact model of the comparisons the ranking performs.
* The stored `rating` column is modelled as `Rat`, not `Int`: the HTTP layer
  (`SaveRatingRequest` in `main.py`) declares `rating: float`, SQLModel
  `table=True` models do not validate fields on construction, and a SQLite
  column of INTEGER affinity stores a non-integral REAL (e.g. `4.5`) as REAL.
  The only enforcement on the column is the table-level
  `CheckConstraint('rating >= 1 AND rating <= 5')`.
* `model.predict(uid, iid)` of the pickled surprise model returns a
  `Prediction` object carrying the raw ids and the float estimate `est`; the
  model is embedded as a pure function `Int → Int → Rat` from `(uid, iid)` to
  the estimate, which is exact for a fixed loaded model (stateless inference).
* Python's built-in `sorted` is a stable sort; any two stable sorts by the
  same key agree on every input, so it is embedded as `List.insertionSort`
  with the relation `estGe` (`sorted(predictions, key=lambda x: x.est,
  reverse=True)` keeps, among equal keys, the input order, exactly as
  `insertionSort` does).
* Python slices `l[:n]` and `l[n:]` are embedded including their semantics
  for negative `n` (`pySliceTo`, `pySliceFrom`).
* A handler body `try: ... except Exception: raise HTTPException(500)` is
  embedded as `Except String`: `Except.error` is the HTTP 500 path.
-/

namespace MovieRec

/-- Row of the `movie` table (`database.py`, class `Movie`): autoincrement
primary key `id` plus the externally sourced unique `movie_id`. -/
structure Movie where
  id : Int
  movie_id : Int
  movie_title : String
  release_date : Option String
  genres : Option String
  url : Option String
  poster_url : Option String
deriving Repr, DecidableEq

/-- Row of the `rating` table (`database.py`, class `Rating`).  The `rating`
column is modelled as `Rat` (see the module comment: the write path hands the
column a Python float unvalidated, and SQLite keeps a non-integral value). -/
structure Rating where
  id : Int
  user_id : Int
  movie_id : Int
  rating : Rat
  timestamp : Option Int
deriving Repr, DecidableEq

/-- The mutable database state the claims touch: the `movie` and `rating`
tables, rows in insertion order. -/
structure Store where
  movies : List Movie
  ratings : List Rating
deriving Repr, DecidableEq

/-- `database.get_movie(movie_id)`: `session.get(Movie, movie_id)`, a
point lookup by PRIMARY KEY `id` (not by the `movie_id` column). -/
def get_movie (s : Store) (movie_id : Int) : Option Movie :=
  s.movies.find? (fun m => m.id == movie_id)

/-- `database.get_unrated_movies_by_user(user_id)`:
`select(Movie).where(~Movie.id.in_(select(Rating.movie_id).where(Rating.user_id == user_id)))`.
Note the source compares the movie PRIMARY KEY `Movie.id` with the
`Rating.movie_id` column. -/
def get_unrated_movies_by_user (s : Store) (user_id : Int) : List Movie :=
  s.movies.filter (fun m =>
    !(((s.ratings.filter (fun r => r.user_id == user_id)).map
        (fun r => r.movie_id)).contains m.id))

/-- The surprise `Prediction` object: raw user id `uid`, raw item id `iid`,
float estimate `est` (fields `r_ui`/`details` are unused by this code). -/
structure Prediction where
  uid : Int
  iid : Int
  est : Rat
deriving Repr, DecidableEq

/-- `model.predict(user_id, movie_id)`: the loaded model is a pure scoring
function `(uid, iid) ↦ est`; `predict` wraps the result with the raw ids. -/
def modelPredict (model : Int → Int → Rat) (user_id movie_id : Int) : Prediction :=
  ⟨user_id, movie_id, model user_id movie_id⟩

/-- `predict.predict_for_user(model, user_id, movie_id)`: a direct
pass-through to `model.predict`. -/
def predict_for_user (model : Int → Int → Rat) (user_id movie_id : Int) : Prediction :=
  modelPredict model user_id movie_id

/-- The comparison performed by
`sorted(predictions, key=lambda x: x.est, reverse=True)`:
`a` may stay before `b` iff `b.est ≤ a.est`. -/
def estGe (a b : Prediction) : Prop := b.est ≤ a.est

instance estGe.decRel : DecidableRel estGe :=
  fun a b => inferInstanceAs (Decidable (b.est ≤ a.est))

instance estGe.total : IsTotal Prediction estGe :=
  ⟨fun a b => le_total b.est a.est⟩

instance estGe.trans : IsTrans Prediction estGe :=
  ⟨fun _ _ _ h1 h2 => le_trans h2 h1⟩

/-- Python slice `l[:n]`, including negative `n` (`l[:n]` with `n < 0` keeps
all but the last `|n|` elements; it clamps, never errors). -/
def pySliceTo {α : Type} (l : List α) (n : Int) : List α :=
  if 0 ≤ n then l.take n.toNat else l.take ((l.length : Int) + n).toNat

/-- Python slice `l[n:]`, including negative `n` (clamps, never errors). -/
def pySliceFrom {α : Type} (l : List α) (n : Int) : List α :=
  if 0 ≤ n then l.drop n.toNat else l.drop ((l.length : Int) + n).toNat

/-- `predict.predict_top_n_for_user(model, user_id, top_n)`: score every
unrated movie, sort by descending estimate with Python's stable `sorted`,
and slice off the first `top_n`. -/
def predict_top_n_for_user (s : Store) (model : Int → Int → Rat)
    (user_id : Int) (top_n : Int) : List Prediction :=
  let all_unrated_movies := get_unrated_movies_by_user s user_id
  let predictions := all_unrated_movies.map
    (fun movie => modelPredict model user_id movie.movie_id)
  let sorted_predictions := List.insertionSort estGe predictions
  pySliceTo sorted_predictions top_n

/-- The response item of the recommendation endpoints (`main.py`, pydantic
model `Recommendation`): a non-null `Movie` and the float estimate.  Pydantic
rejects `movie=None` (the field is not optional), so a `Recommendation` can
only be built from an actual `Movie` row. -/
structure Recommendation where
  movie : Movie
  prediction_rating : Rat
deriving Repr, DecidableEq

/-- The hydration loop of `main.get_recommendations`: for each prediction,
`db.get_movie(rec.iid)` and then `Recommendation(movie=movie, ...)`.  When the
lookup returns `None`, pydantic raises a validation error, which the
surrounding `except Exception` turns into an HTTP 500 (`Except.error`). -/
def hydrate (s : Store) : List Prediction → Except String (List Recommendation)
  | [] => Except.ok []
  | p :: ps =>
    match get_movie s p.iid with
    | none => Except.error "validation error: movie must not be None"
    | some movie => (hydrate s ps).map (fun rest => ⟨movie, p.est⟩ :: rest)

/-- `GET /recommendations/\x7buser_id\x7d` (`main.get_recommendations`):
rank with `predict_top_n_for_user`, then hydrate each result. -/
def get_recommendations (s : Store) (model : Int → Int → Rat)
    (user_id : Int) (top_n : Int) : Except String (List Recommendation) :=
  hydrate s (predict_top_n_for_user s model user_id top_n)

/-- Modelled from the spec: `predict_top_n_for_user_by_genre` is called by
`main.get_recommendations_by_genre` but is absent from `util/predict.py`
(and from the whole reviewed source).  Following the spec (§4.1): identical
semantics to `predict_top_n_for_user`, with the candidates additionally
filtered to movies whose genre set contains the genre id; the spec leaves the
genre-matching semantics open, so the membership test is a parameter
`hasGenre`. -/
def predict_top_n_for_user_by_genre (s : Store) (model : Int → Int → Rat)
    (hasGenre : Movie → Int → Bool) (user_id : Int) (top_n : Int)
    (genre_id : Int) : List Prediction :=
  let candidates := (get_unrated_movies_by_user s user_id).filter
    (fun m => hasGenre m genre_id)
  let predictions := candidates.map
    (fun movie => modelPredict model user_id movie.movie_id)
  pySliceTo (List.insertionSort estGe predictions) top_n

/-- `GET /recommendations/genre/\x7bgenre_id\x7d`
(`main.get_recommendations_by_genre`): request `top_n + skip` ranked results,
hydrate them, and return `recommendations[skip:]`. -/
def get_recommendations_by_genre (s : Store) (model : Int → Int → Rat)
    (hasGenre : Movie → Int → Bool) (genre_id user_id top_n skip : Int) :
    Except String (List Recommendation) :=
  (hydrate s (predict_top_n_for_user_by_genre s model hasGenre user_id
      (top_n + skip) genre_id)).map
    (fun recommendations => pySliceFrom recommendations skip)

/-- `database.create_rating(rating)`: `session.add` + `session.commit`.  The
commit enforces the table-level `CheckConstraint('rating >= 1 AND rating <= 5')`;
a violating row raises `IntegrityError` (→ HTTP 500 in the endpoint) and is
not stored.  No integrality check exists anywhere on the write path. -/
def create_rating (s : Store) (r : Rating) : Except String Store :=
  if 1 ≤ r.rating ∧ r.rating ≤ 5 then
    Except.ok { s with ratings := s.ratings ++ [r] }
  else
    Except.error "IntegrityError: CHECK constraint failed: check_rating"

/-- `database.update_rating(rating_id, new_data)` as called by
`PUT /ratings/\x7brating_id\x7d`: point lookup by primary key; absent row →
`None`, store unchanged; present row → overwrite `user_id`, `movie_id`,
`rating` and commit, the commit again enforcing the CHECK constraint (a
violation rolls the session back, leaving the store unchanged). -/
def update_rating (s : Store) (rating_id : Int) (new_user_id new_movie_id : Int)
    (new_value : Rat) : Except String Store :=
  match s.ratings.find? (fun r => r.id == rating_id) with
  | none => Except.ok s
  | some _ =>
    if 1 ≤ new_value ∧ new_value ≤ 5 then
      Except.ok { s with ratings := s.ratings.map (fun r =>
        if r.id == rating_id then
          { r with user_id := new_user_id, movie_id := new_movie_id,
                   rating := new_value }
        else r) }
    else
      Except.error "IntegrityError: CHECK constraint failed: check_rating"

/-- `database.delete_rating(rating_id)`: point lookup by primary key, delete
the row when present. -/
def delete_rating (s : Store) (rating_id : Int) : Bool × Store :=
  match s.ratings.find? (fun r => r.id == rating_id) with
  | none => (false, s)
  | some _ => (true, { s with ratings := s.ratings.eraseP (fun r => r.id == rating_id) })

/-- The rating-table write operations reachable from the HTTP layer
(`POST /ratings`, `PUT /ratings/\x7bid\x7d`, `DELETE /ratings/\x7bid\x7d`). -/
inductive RatingOp where
  | createOp (r : Rating)
  | updateOp (rating_id new_user_id new_movie_id : Int) (new_value : Rat)
  | deleteOp (rating_id : Int)

/-- Effect of one rating operation on the store; a rejected write
(`IntegrityError`, rolled back) leaves the store unchanged. -/
def applyRatingOp (s : Store) : RatingOp → Store
  | RatingOp.createOp r =>
    match create_rating s r with
    | Except.ok s2 => s2
    | Except.error _ => s
  | RatingOp.updateOp rid uu mm v =>
    match update_rating s rid uu mm v with
    | Except.ok s2 => s2
    | Except.error _ => s
  | RatingOp.deleteOp rid => (delete_rating s rid).2

/-- `database.delete_movie(movie_id)`: point lookup by primary key
(`session.get(Movie, movie_id)`); absent → `False`, store unchanged;
present → row deleted, `True`. -/
def delete_movie (s : Store) (movie_id : Int) : Bool × Store :=
  match get_movie s movie_id with
  | none => (false, s)
  | some _ => (true, { s with movies := s.movies.eraseP (fun m => m.id == movie_id) })

/-- `DELETE /movies/\x7bmovie_id\x7d` (`main.delete_movie`): calls
`db.delete_movie` and ignores its boolean result, always answering with the
success message. -/
def delete_movie_endpoint (s : Store) (movie_id : Int) : Store × String :=
  let result := delete_movie s movie_id
  (result.2, "Movie deleted successfully")

/-- Invariant of claim C9, as the code actually maintains it: every stored
rating value lies in the closed interval [1, 5]. -/
def ratingInv (s : Store) : Prop := ∀ r ∈ s.ratings, 1 ≤ r.rating ∧ r.rating ≤ 5

/-! Concrete inputs used by counterexamples and witnesses. -/

/-- A movie whose primary key (1) differs from its external `movie_id` (42),
as produced by `POST /movies` (the key autoincrements, `movie_id` comes from
the request). -/
def movie1x42 : Movie := ⟨1, 42, "Contact (1997)", none, none, none, none⟩

/-- A store holding `movie1x42` and a rating by user 7 of `movie_id` 42. -/
def storeC1 : Store := ⟨[movie1x42], [⟨1, 7, 42, 5, none⟩]⟩

/-- Movie with primary key and external id both 1. -/
def m1 : Movie := ⟨1, 1, "Toy Story (1995)", none, none, none, none⟩

/-- Movie with primary key and external id both 2. -/
def m2 : Movie := ⟨2, 2, "GoldenEye (1995)", none, none, none, none⟩

/-- Movie with primary key and external id both 3. -/
def m3 : Movie := ⟨3, 3, "Four Rooms (1995)", none, none, none, none⟩

/-- Movie with primary key and external id both 4. -/
def m4 : Movie := ⟨4, 4, "Get Shorty (1995)", none, none, none, none⟩

/-- A catalog of two movies, no ratings. -/
def storeAB : Store := ⟨[m1, m2], []⟩

/-- A catalog of three movies, no ratings. -/
def storeABC : Store := ⟨[m1, m2, m3], []⟩

/-- A catalog of four movies, no ratings. -/
def storeABCD : Store := ⟨[m1, m2, m3, m4], []⟩

/-- A scorer assigning every pair the constant estimate 1. -/
def constModel : Int → Int → Rat := fun _ _ => 1

/-- The scorer of the C5 tie scenario: movies 1 and 2 get estimate 9/10,
movie 3 gets 1/2. -/
def tieModel : Int → Int → Rat := fun _ mid => if mid == 3 then mkRat 1 2 else mkRat 9 10

/-- A scorer with distinct estimates 4, 3, 2, 1 for movies 1, 2, 3, 4. -/
def descModel : Int → Int → Rat := fun _ mid =>
  if mid == 1 then 4 else if mid == 2 then 3 else if mid == 3 then 2 else 1

/-! Helper lemmas about the ranking pipeline. -/

/-- Unfolding of `predict_top_n_for_user` through its let-bindings. -/
theorem predict_top_n_for_user_def (s : Store) (model : Int → Int → Rat)
    (u n : Int) :
    predict_top_n_for_user s model u n
      = pySliceTo (List.insertionSort estGe ((get_unrated_movies_by_user s u).map
          (fun movie => modelPredict model u movie.movie_id))) n := rfl

/-- For a nonnegative bound, the Python slice `l[:n]` is `List.take`. -/
theorem pySliceTo_of_nonneg {α : Type} (l : List α) {n : Int} (h : 0 ≤ n) :
    pySliceTo l n = l.take n.toNat := by
  simp [pySliceTo, h]

/-- The Python slice `l[:n]` is a sublist of `l` for every `n`. -/
theorem pySliceTo_sublist {α : Type} (l : List α) (n : Int) :
    List.Sublist (pySliceTo l n) l := by
  unfold pySliceTo
  split
  · exact List.take_sublist _ _
  · exact List.take_sublist _ _

/-! Theorems, one per claim. -/

/-- Claim C1, counterexample: in `storeC1` a `Rating` row for user 7 with
`movie1x42`'s `movie_id` (42) exists, yet `get_unrated_movies_by_user` still
returns `movie1x42` for user 7 — the source filters on the primary key
`Movie.id`, not on `Movie.movie_id`. -/
theorem c1_counterexample :
    (∃ r ∈ storeC1.ratings, r.user_id = 7 ∧ r.movie_id = movie1x42.movie_id) ∧
    movie1x42 ∈ get_unrated_movies_by_user storeC1 7 := by
  decide

/-- Claim C1 (amended): `get_unrated_movies_by_user(u)` returns exactly the
movies whose primary key `id` does not appear among the `movie_id` values of
`u`'s `Rating` rows; the claim as stated holds only for movies whose `id`
equals their `movie_id`. -/
theorem c1_unrated_iff_pk_not_in_ratings (s : Store) (u : Int) (m : Movie) :
    m ∈ get_unrated_movies_by_user s u ↔
      m ∈ s.movies ∧ ¬∃ r ∈ s.ratings, r.user_id = u ∧ r.movie_id = m.id := by
  simp [get_unrated_movies_by_user, List.mem_filter, List.contains,
    List.elem_eq_mem, List.mem_map, and_assoc]

/-- Claim C6: for a user with no `Rating` rows (in particular a user id that
never appears in the store), `get_unrated_movies_by_user` returns the entire
movie catalog. -/
theorem c6_no_ratings_full_catalog (s : Store) (u : Int)
    (h : ∀ r ∈ s.ratings, r.user_id ≠ u) :
    get_unrated_movies_by_user s u = s.movies := by
  unfold get_unrated_movies_by_user
  have hnil : s.ratings.filter (fun r => r.user_id == u) = [] := by
    refine List.filter_eq_nil_iff.mpr ?_
    intro r hr
    simpa using h r hr
  rw [hnil]
  simp

/-- Claim C6 witness: in `storeC1` user 9 has no ratings (the only rating row
belongs to user 7), so the result is the whole catalog. -/
theorem c6_witness : get_unrated_movies_by_user storeC1 9 = storeC1.movies :=
  c6_no_ratings_full_catalog storeC1 9 (by decide)

/-- Claim C10: when no movie row has primary key `movie_id`, the database
helper `delete_movie` returns `False` and leaves the store unchanged, yet the
`DELETE /movies/\x7bmovie_id\x7d` endpoint still answers with the success
message "Movie deleted successfully". -/
theorem c10_delete_missing_still_success (s : Store) (movie_id : Int)
    (h : get_movie s movie_id = none) :
    delete_movie s movie_id = (false, s) ∧
    delete_movie_endpoint s movie_id = (s, "Movie deleted successfully") := by
  constructor
  · simp [delete_movie, h]
  · simp [delete_movie_endpoint, delete_movie, h]

/-- Claim C10 witness: deleting primary key 5 from `storeC1` (which only has
key 1) returns `False`, leaves the store unchanged and still reports
success. -/
theorem c10_witness :
    delete_movie storeC1 5 = (false, storeC1) ∧
    delete_movie_endpoint storeC1 5 = (storeC1, "Movie deleted successfully") :=
  c10_delete_missing_still_success storeC1 5 (by decide)

/-- Claim C2, counterexample: with two candidates and `top_n = -1` (an
integer `topN ≤ 0`, accepted by the `top_n: int` query parameter), the output
is not empty — the Python slice `[:(-1)]` drops only the last element, so one
prediction is returned. -/
theorem c2_counterexample :
    (-1 : Int) ≤ 0 ∧ predict_top_n_for_user storeAB constModel 7 (-1) ≠ [] ∧
    (predict_top_n_for_user storeAB constModel 7 (-1)).length = 1 := by
  refine ⟨by decide, by decide, by decide⟩

/-- Claim C2 (amended): for `topN ≥ 0` the output length is exactly
`min(topN, |candidates|)` — so it is empty for `topN = 0` and, when `topN`
is at least the candidate count, the whole sorted candidate list is returned
with no error and no padding.  For negative `topN` Python slicing instead
drops the last `|topN|` elements (see the counterexample). -/
theorem c2_topn_window (s : Store) (model : Int → Int → Rat) (u : Int)
    {n : Int} (h : 0 ≤ n) :
    (predict_top_n_for_user s model u n).length
        = min n.toNat (get_unrated_movies_by_user s u).length ∧
    ((get_unrated_movies_by_user s u).length ≤ n.toNat →
      predict_top_n_for_user s model u n
        = List.insertionSort estGe ((get_unrated_movies_by_user s u).map
            (fun movie => modelPredict model u movie.movie_id))) := by
  constructor
  · rw [predict_top_n_for_user_def, pySliceTo_of_nonneg _ h, List.length_take,
      List.length_insertionSort, List.length_map]
  · intro hle
    rw [predict_top_n_for_user_def, pySliceTo_of_nonneg _ h]
    exact List.take_of_length_le (by rwa [List.length_insertionSort, List.length_map])

/-- Claim C2 witness: three candidates, `topN = 5 ≥ 0`: the returned length
is `min 5 3 = 3`. -/
theorem c2_witness :
    (predict_top_n_for_user storeABC constModel 7 5).length
      = min (5 : Int).toNat (get_unrated_movies_by_user storeABC 7).length :=
  (c2_topn_window storeABC constModel 7 (by decide)).1

/-- Claim C4: the ranking output is sorted by descending estimate — any two
adjacent results satisfy `estimate[i] ≥ estimate[i+1]`. -/
theorem c4_sorted_descending (s : Store) (model : Int → Int → Rat) (u n : Int)
    (i : Nat) (h : i + 1 < (predict_top_n_for_user s model u n).length) :
    ((predict_top_n_for_user s model u n).get ⟨i + 1, h⟩).est
      ≤ ((predict_top_n_for_user s model u n).get ⟨i, Nat.lt_of_succ_lt h⟩).est := by
  have hsorted : (List.insertionSort estGe ((get_unrated_movies_by_user s u).map
      (fun movie => modelPredict model u movie.movie_id))).Pairwise estGe :=
    List.sorted_insertionSort estGe _
  have hpw : (predict_top_n_for_user s model u n).Pairwise estGe := by
    rw [predict_top_n_for_user_def]
    exact List.Pairwise.sublist (pySliceTo_sublist _ _) hsorted
  exact List.pairwise_iff_get.mp hpw ⟨i, Nat.lt_of_succ_lt h⟩ ⟨i + 1, h⟩
    (Nat.lt_succ_self i)

/-- Claim C4 witness: with the distinct-estimate scorer over four candidates,
the estimates at positions 1 and 0 satisfy `est[1] ≤ est[0]`. -/
theorem c4_witness :
    ((predict_top_n_for_user storeABCD descModel 7 10).get ⟨1, by decide⟩).est
      ≤ ((predict_top_n_for_user storeABCD descModel 7 10).get ⟨0, by decide⟩).est :=
  c4_sorted_descending storeABCD descModel 7 10 0 (by decide)

/-- Stability of the embedded sort: for every estimate value `c`, the
subsequence of predictions with estimate `c` is returned in exactly its input
order.  (Only the ranking step uses this lemma.) -/
theorem insertionSort_filter_est (l : List Prediction) (c : Rat) :
    (List.insertionSort estGe l).filter (fun p => p.est == c)
      = l.filter (fun p => p.est == c) := by
  have hpw : (l.filter (fun p => p.est == c)).Pairwise estGe := by
    refine List.pairwise_of_forall_mem_list ?_
    intro a ha b hb
    have ha2 : a.est = c := by simpa using (List.mem_filter.mp ha).2
    have hb2 : b.est = c := by simpa using (List.mem_filter.mp hb).2
    show b.est ≤ a.est
    rw [ha2, hb2]
  have hsub : List.Sublist (l.filter (fun p => p.est == c))
      (List.insertionSort estGe l) :=
    List.sublist_insertionSort hpw (List.filter_sublist l)
  have hsub2 : List.Sublist (l.filter (fun p => p.est == c))
      ((List.insertionSort estGe l).filter (fun p => p.est == c)) := by
    have hff := hsub.filter (fun p => p.est == c)
    rwa [List.filter_eq_self.mpr (fun a ha => (List.mem_filter.mp ha).2)] at hff
  have hlen : ((List.insertionSort estGe l).filter (fun p => p.est == c)).length
      = (l.filter (fun p => p.est == c)).length :=
    ((List.perm_insertionSort estGe l).filter _).length_eq
  exact (hsub2.eq_of_length hlen.symm).symm

/-- Claim C5: the ranking sort is stable — for every estimate value the tied
predictions keep their input order (first conjunct, which with determinism of
the pure ranking function gives identical output on identical input) — and on
the scenario `(1, 9/10), (2, 9/10), (3, 1/2)` with `topN = 2` the result is
`[1, 2]` in original relative order with estimate `9/10` each. -/
theorem c5_stable_ties :
    (∀ (l : List Prediction) (c : Rat),
        (List.insertionSort estGe l).filter (fun p => p.est == c)
          = l.filter (fun p => p.est == c)) ∧
    (predict_top_n_for_user storeABC tieModel 7 2).map (fun p => p.iid) = [1, 2] ∧
    (predict_top_n_for_user storeABC tieModel 7 2).map (fun p => p.est)
      = [mkRat 9 10, mkRat 9 10] :=
  ⟨insertionSort_filter_est, by decide, by decide⟩

/-- Claim C8: for a movie `m` that is unrated by user `u` (so `m` is a
candidate) and a `topN` at least the catalog size, the entry for `m` in the
ranking output exists and carries exactly the estimate of the single-item
path `predict_for_user(u, m.movie_id)` — the Scorer is a pure function, so it
is deterministic by construction. -/
theorem c8_round_trip (s : Store) (model : Int → Int → Rat) (u : Int)
    (m : Movie) {n : Int} (hm : m ∈ get_unrated_movies_by_user s u)
    (hn : (s.movies.length : Int) ≤ n) :
    (∃ p ∈ predict_top_n_for_user s model u n, p.iid = m.movie_id) ∧
    (∀ p ∈ predict_top_n_for_user s model u n, p.iid = m.movie_id →
      p.est = (predict_for_user model u m.movie_id).est) := by
  have h0 : (0 : Int) ≤ n := le_trans (Int.natCast_nonneg _) hn
  have hcand : (get_unrated_movies_by_user s u).length ≤ s.movies.length :=
    (List.filter_sublist s.movies).length_le
  have hle : (get_unrated_movies_by_user s u).length ≤ n.toNat := by
    refine (Int.le_toNat h0).mpr (le_trans ?_ hn)
    exact_mod_cast hcand
  have heq : predict_top_n_for_user s model u n
      = List.insertionSort estGe ((get_unrated_movies_by_user s u).map
          (fun movie => modelPredict model u movie.movie_id)) := by
    rw [predict_top_n_for_user_def, pySliceTo_of_nonneg _ h0]
    exact List.take_of_length_le
      (by rwa [List.length_insertionSort, List.length_map])
  constructor
  · refine ⟨modelPredict model u m.movie_id, ?_, rfl⟩
    rw [heq]
    exact ((List.perm_insertionSort estGe _).mem_iff).mpr
      (List.mem_map_of_mem _ hm)
  · intro p hp hiid
    rw [heq] at hp
    have hp2 := ((List.perm_insertionSort estGe _).mem_iff).mp hp
    obtain ⟨movie, _, rfl⟩ := List.mem_map.mp hp2
    have hmid : movie.movie_id = m.movie_id := hiid
    show model u movie.movie_id = model u m.movie_id
    rw [hmid]

/-- Claim C8 witness: for the three-movie catalog with the tie scorer,
`topN = 5 ≥ 3` and the unrated movie `m1`, the ranking entry with
`iid = m1.movie_id` exists and repeats the single-item estimate. -/
theorem c8_witness :
    (∃ p ∈ predict_top_n_for_user storeABC tieModel 7 5, p.iid = m1.movie_id) ∧
    (∀ p ∈ predict_top_n_for_user storeABC tieModel 7 5, p.iid = m1.movie_id →
      p.est = (predict_for_user tieModel 7 m1.movie_id).est) :=
  c8_round_trip storeABC tieModel 7 m1 (by decide) (by decide)

/-- Hydration aborts with an error as soon as some scored `movieId` has no
movie row: the `None` from `db.get_movie` fails pydantic validation and the
handler's `except` turns it into an HTTP 500. -/
theorem hydrate_error_of_missing (s : Store) (l : List Prediction)
    (h : ∃ p ∈ l, get_movie s p.iid = none) :
    ∃ e, hydrate s l = Except.error e := by
  induction l with
  | nil => simp at h
  | cons p ps ih =>
    obtain ⟨q, hq, hnone⟩ := h
    rcases List.mem_cons.mp hq with rfl | hq2
    · exact ⟨"validation error: movie must not be None", by simp [hydrate, hnone]⟩
    · cases hfind : get_movie s p.iid with
      | none =>
        exact ⟨"validation error: movie must not be None", by simp [hydrate, hfind]⟩
      | some movie =>
        obtain ⟨e, he⟩ := ih ⟨q, hq2, hnone⟩
        exact ⟨e, by simp [hydrate, hfind, he, Except.map]⟩

/-- When every scored `movieId` still has a movie row, hydration succeeds and
keeps every entry (no omission). -/
theorem hydrate_ok_of_all_found (s : Store) (l : List Prediction)
    (h : ∀ p ∈ l, ∃ mov, get_movie s p.iid = some mov) :
    ∃ recs, hydrate s l = Except.ok recs ∧ recs.length = l.length := by
  induction l with
  | nil => exact ⟨[], rfl, rfl⟩
  | cons p ps ih =>
    obtain ⟨mov, hmov⟩ := h p (List.mem_cons_self p ps)
    obtain ⟨recs, hr, hlen⟩ := ih (fun q hq => h q (List.mem_cons_of_mem p hq))
    exact ⟨⟨mov, p.est⟩ :: recs, by simp [hydrate, hmov, hr, Except.map],
      by simp [hlen]⟩

/-- Claim C3, counterexample: in `storeC1` the only candidate for user 9 is
`movie1x42`; the point lookup `get_movie(42)` (a primary-key lookup) finds no
row, and `GET /recommendations/9` fails with an error instead of returning a
list with the entry omitted. -/
theorem c3_counterexample :
    get_recommendations storeC1 constModel 9 10
      = Except.error "validation error: movie must not be None" := rfl

/-- Claim C3 (amended): when the point lookup during hydration returns no
record for a scored `movieId`, the whole request fails with an error (HTTP
500 via a pydantic validation failure) — the entry is not omitted; when every
lookup succeeds, the request succeeds with no entry omitted. -/
theorem c3_missing_movie_fails_request (s : Store) (model : Int → Int → Rat)
    (u n : Int) :
    ((∃ p ∈ predict_top_n_for_user s model u n, get_movie s p.iid = none) →
      ∃ e, get_recommendations s model u n = Except.error e) ∧
    ((∀ p ∈ predict_top_n_for_user s model u n,
        ∃ mov, get_movie s p.iid = some mov) →
      ∃ recs, get_recommendations s model u n = Except.ok recs ∧
        recs.length = (predict_top_n_for_user s model u n).length) :=
  ⟨fun h => hydrate_error_of_missing s _ h,
   fun h => hydrate_ok_of_all_found s _ h⟩

/-- Claim C3 witness: the error branch of the amended claim fires on the
concrete store whose movie has primary key 1 but external id 42. -/
theorem c3_witness :
    ∃ e, get_recommendations storeC1 constModel 9 10 = Except.error e :=
  (c3_missing_movie_fails_request storeC1 constModel 9 10).1
    ⟨⟨9, 42, 1⟩, by decide, by decide⟩

/-- Claim C7: the genre-scoped endpoint requests `topN + skip` ranked results
and then drops the first `skip` entries (first conjunct, definitional for the
embedded handler), and on the scenario `skip = 3`, `topN = 2` over 4 ranked
candidates (window of 5 requested) exactly one result is returned — the
4th-ranked movie — with no error.  The ranking-by-genre step itself is
modelled from the spec because `predict_top_n_for_user_by_genre` is missing
from the source. -/
theorem c7_skip_window :
    (∀ (s : Store) (model : Int → Int → Rat) (hasGenre : Movie → Int → Bool)
        (genre_id user_id top_n skip : Int),
        get_recommendations_by_genre s model hasGenre genre_id user_id top_n skip
          = (hydrate s (predict_top_n_for_user_by_genre s model hasGenre user_id
              (top_n + skip) genre_id)).map
              (fun recommendations => pySliceFrom recommendations skip)) ∧
    get_recommendations_by_genre storeABCD descModel (fun _ _ => true) 5 7 2 3
      = Except.ok [⟨m4, 1⟩] :=
  ⟨fun _ _ _ _ _ _ _ => rfl, rfl⟩

/-- Every single rating-table operation keeps all stored rating values inside
the closed interval [1, 5]: the CHECK constraint guards `INSERT` and `UPDATE`
(a violation is rolled back), and `DELETE` only removes rows. -/
theorem applyRatingOp_preserves_inv (s : Store) (op : RatingOp)
    (h : ratingInv s) : ratingInv (applyRatingOp s op) := by
  cases op with
  | createOp r =>
    by_cases hc : 1 ≤ r.rating ∧ r.rating ≤ 5
    · intro x hx
      simp only [applyRatingOp, create_rating, if_pos hc] at hx
      rcases List.mem_append.mp hx with hx2 | hx2
      · exact h x hx2
      · rw [List.mem_singleton.mp hx2]
        exact hc
    · intro x hx
      simp only [applyRatingOp, create_rating, if_neg hc] at hx
      exact h x hx
  | updateOp rid uu mm v =>
    cases hfind : s.ratings.find? (fun r => r.id == rid) with
    | none =>
      intro x hx
      simp only [applyRatingOp, update_rating, hfind] at hx
      exact h x hx
    | some row =>
      by_cases hc : 1 ≤ v ∧ v ≤ 5
      · intro x hx
        simp only [applyRatingOp, update_rating, hfind, if_pos hc] at hx
        obtain ⟨a, ha, rfl⟩ := List.mem_map.mp hx
        by_cases hid : a.id == rid
        · simp only [hid, if_pos rfl]
          exact hc
        · simp only [hid]
          simpa using h a ha
      · intro x hx
        simp only [applyRatingOp, update_rating, hfind, if_neg hc] at hx
        exact h x hx
  | deleteOp rid =>
    intro x hx
    simp only [applyRatingOp, delete_rating] at hx
    cases hfind : s.ratings.find? (fun r => r.id == rid) with
    | none =>
      rw [hfind] at hx
      exact h x hx
    | some row =>
      rw [hfind] at hx
      exact h x ((List.eraseP_sublist s.ratings).subset hx)

/-- Claim C9 (amended): after every sequence of create/update/delete rating
operations starting from a store satisfying the interval invariant, every
stored rating value lies in the closed interval [1, 5], and a write whose
value lies outside [1, 5] is rejected at write time; integrality, however, is
not enforced (see the counterexample: 9/2 is accepted). -/
theorem c9_rating_bounds (s : Store) (ops : List RatingOp) (r0 : Rating)
    (h : ratingInv s) :
    ratingInv (ops.foldl applyRatingOp s) ∧
    (r0.rating < 1 ∨ 5 < r0.rating → ∃ e, create_rating s r0 = Except.error e) := by
  constructor
  · induction ops generalizing s with
    | nil => exact h
    | cons op rest ih => exact ih _ (applyRatingOp_preserves_inv s op h)
  · intro hout
    have hc : ¬(1 ≤ r0.rating ∧ r0.rating ≤ 5) := by
      rcases hout with hlt | hgt
      · exact fun hand => absurd hand.1 (not_le.mpr hlt)
      · exact fun hand => absurd hand.2 (not_le.mpr hgt)
    refine ⟨"IntegrityError: CHECK constraint failed: check_rating", ?_⟩
    unfold create_rating
    rw [if_neg hc]

/-- Claim C9, counterexample: `create_rating` accepts a row whose rating
value is 9/2 = 4.5 — the value reaches the store (the CHECK constraint only
bounds it, `SaveRatingRequest` types the field as `float`, and SQLModel
table models skip validation), and 4.5 is not in `{1, 2, 3, 4, 5}`. -/
theorem c9_counterexample :
    create_rating ⟨[], []⟩ ⟨1, 7, 42, mkRat 9 2, none⟩
        = Except.ok ⟨[], [⟨1, 7, 42, mkRat 9 2, none⟩]⟩ ∧
    ¬(mkRat 9 2 = 1 ∨ mkRat 9 2 = 2 ∨ mkRat 9 2 = 3 ∨ mkRat 9 2 = 4 ∨
      mkRat 9 2 = 5) := by
  constructor
  · rfl
  · decide

/-- A concrete operation sequence: two inserts (one rejected, value 9), an
update to 9/2 and a delete. -/
def opsC9 : List RatingOp :=
  [RatingOp.createOp ⟨1, 7, 42, 3, none⟩,
   RatingOp.createOp ⟨2, 7, 42, 9, none⟩,
   RatingOp.updateOp 1 7 42 (mkRat 9 2),
   RatingOp.deleteOp 2]

/-- Claim C9 witness: the interval invariant holds after the concrete
operation sequence `opsC9` from the empty store, and the out-of-range write
of value 6 is rejected. -/
theorem c9_witness :
    ratingInv (opsC9.foldl applyRatingOp ⟨[], []⟩) ∧
    (∃ e, create_rating ⟨[], []⟩ ⟨3, 1, 1, 6, none⟩ = Except.error e) :=
  ⟨(c9_rating_bounds ⟨[], []⟩ opsC9 ⟨3, 1, 1, 6, none⟩
      (fun r hr => absurd hr (List.not_mem_nil r))).1,
   (c9_rating_bounds ⟨[], []⟩ opsC9 ⟨3, 1, 1, 6, none⟩
      (fun r hr => absurd hr (List.not_mem_nil r))).2 (Or.inr (by decide))⟩

end MovieRec
